import Mathlib

/-!
Shallow embedding of the Javaspectre C++ core (cpp/javaspectre/*.cpp,
src/chat/JavaspectreCommandBlock.cpp) and proofs about its claims.

Modelling conventions:
* C++ `double` arithmetic is embedded as exact rational (`ℚ`) arithmetic;
  the literals 0.4, 0.3, 0.2, 0.1, 0.65, 0.75, 0.6 become the rationals
  4/10, 3/10, 2/10, 1/10, 65/100, 75/100, 6/10.
* `std::map<std::string,std::string>` payloads are embedded as association
  lists in construction order; only key lookup is ever observed.
* Envelope `data` maps are embedded as functions `String → Option String`
  with pointwise update (`std::map::operator[]` overwrite semantics).
* `std::to_string(double)` is an external library function; handlers are
  parameterised over it as `fmt : ℚ → String`, and over the wall clock
  `nowIso()` as a plain `now : String` argument.
* `std::string::size()` is byte length (`String.utf8ByteSize`);
  `substr(0, n)` is `strTake · n` (all inputs of interest are ASCII,
  where bytes and characters agree).
* Calls with side effects (ToolExecutor::execute dispatches, AlnGateway
  evaluate/commit, Logger::log) are recorded in an event trace `List Ev`
  by the `...T` (traced) variants, whose first component is the value the
  C++ function returns.
* `AlnGateway` is declared in JavaspectreAugmentedGuard.hpp but implemented
  by the external ALN/CEM runtime, so the embedding is parameterised over
  an arbitrary implementation `AlnGatewayImpl`.
-/

namespace Javaspectre

/-! ## Data model (JavaspectreAgent.hpp, JavaspectreCore.hpp, JavaspectreAugmented.hpp) -/

structure AgentAction where
  type : String
  payload : List (String × String)
  priority : Int
deriving DecidableEq, Inhabited

structure AgentPlan where
  goal : String
  steps : List AgentAction
deriving DecidableEq, Inhabited

structure ToolResult where
  success : Bool
  detail : String
deriving DecidableEq, Inhabited

/-- Lookup in an association-list payload: `payload.contains(k) ? payload.at(k) : none`. -/
def lookupPayload (p : List (String × String)) (k : String) : Option String :=
  (p.find? (fun kv => kv.1 == k)).map (fun kv => kv.2)

/-- Envelope `data` field: `std::map<std::string,std::string>` observed through lookup. -/
def EnvData : Type := String → Option String

def EnvData.empty : EnvData := fun _ => none

def EnvData.set (m : EnvData) (k v : String) : EnvData :=
  fun x => if x = k then some v else m x

structure AgentEnvelope where
  title : String
  timestamp : String
  system : String := "Javaspectre Command Block"
  humanReadable : String
  data : EnvData
  plan : AgentPlan

structure HazardInput where
  entropy : ℚ
  semanticDensity : ℚ
  recursionDepth : ℚ
  identityVariance : ℚ
deriving DecidableEq

structure HazardOutput where
  cognitiveHazard : Bool
  entropyAnomaly : Bool
  ontologicalInstability : Bool
  score : ℚ
deriving DecidableEq

structure CitizenSafetyVector where
  ecompute : ℚ
  ebio : ℚ
  erisk : ℚ
  dion_nsv : ℚ
  sar_mwkg : ℚ
  jtissue_mam2 : ℚ
deriving DecidableEq

structure CitizenContext where
  citizenId : String
  vnodePath : String
  regionProfile : String
  medicalMode : Bool := false
deriving DecidableEq

structure CitizenEnvelope where
  ctx : CitizenContext
  safety : CitizenSafetyVector
  energyEpochHash : String
deriving DecidableEq

structure SafetyDecision where
  allowed : Bool
  reason : String
  sigma_rad : ℚ := 1
  sigma_energy : ℚ := 1
  sigma_risk : ℚ := 1
deriving DecidableEq

structure CommandContext where
  input : String
  userId : String
  sessionId : String
  command : String
  consentExecuteFirstStep : Bool := false
deriving DecidableEq

structure AugmentedCommandContext extends CommandContext where
  citizen : CitizenContext
deriving DecidableEq

/-! ## Event traces for observable calls -/

/-- One observable side-effecting call made during a run: a
`ToolExecutor::execute` dispatch, an `AlnGateway::evaluateAction` call,
an `AlnGateway::commitAction` call, or a `Logger::log` call. -/
inductive Ev where
  | dispatch (a : AgentAction) (r : ToolResult)
  | evalAction (a : AgentAction) (allowed : Bool)
  | commitCall (a : AgentAction) (ok : Bool)
  | log (event : String) (data : String)
deriving DecidableEq

/-- The action a trace event dispatched, if it is a dispatch event. -/
def Ev.dispatched : Ev → Option AgentAction
  | .dispatch a _ => some a
  | .evalAction _ _ => none
  | .commitCall _ _ => none
  | .log _ _ => none

/-- The action and verdict of an `evaluateAction` event, if it is one. -/
def Ev.evaluated : Ev → Option (AgentAction × Bool)
  | .dispatch _ _ => none
  | .evalAction a b => some (a, b)
  | .commitCall _ _ => none
  | .log _ _ => none

/-- The action and flag of a `commitAction` event, if it is one. -/
def Ev.committed : Ev → Option (AgentAction × Bool)
  | .dispatch _ _ => none
  | .evalAction _ _ => none
  | .commitCall a b => some (a, b)
  | .log _ _ => none

/-- The event name of a `Logger::log` event, if it is one. -/
def Ev.loggedName : Ev → Option String
  | .dispatch _ _ => none
  | .evalAction _ _ => none
  | .commitCall _ _ => none
  | .log e _ => some e

/-- Actions passed to `ToolExecutor::execute`, in call order. -/
def dispatches (tr : List Ev) : List AgentAction :=
  tr.filterMap Ev.dispatched

/-- Actions passed to `AlnGateway::evaluateAction`, with the returned verdict. -/
def gateEvals (tr : List Ev) : List (AgentAction × Bool) :=
  tr.filterMap Ev.evaluated

/-- Actions passed to `AlnGateway::commitAction`, with the returned flag. -/
def gateCommits (tr : List Ev) : List (AgentAction × Bool) :=
  tr.filterMap Ev.committed

/-- Names of the `Logger::log` events of a trace, in call order. -/
def loggedEventNames (tr : List Ev) : List String :=
  tr.filterMap Ev.loggedName

/-- Embeds `std::min` on doubles: the smaller argument. -/
def qmin (a b : ℚ) : ℚ := if b < a then b else a

/-- Embeds `std::max` on doubles: the larger argument. -/
def qmax (a b : ℚ) : ℚ := if a < b then b else a

/-- Embeds `std::string::substr(0, n)`: the first `n` characters (ASCII
inputs, where bytes and characters agree). -/
def strTake (s : String) (n : Nat) : String :=
  String.mk (s.data.take n)

/-! ## HazardEngine (JavaspectreCore.cpp) -/

def HazardEngine.evaluate (input : HazardInput) : HazardOutput :=
  let score : ℚ :=
    input.entropy * (4/10) +
    input.semanticDensity * (3/10) +
    input.recursionDepth * (2/10) +
    input.identityVariance * (1/10)
  { score := score
    cognitiveHazard := decide (score > 65/100)
    entropyAnomaly := decide (input.entropy > 75/100)
    ontologicalInstability := decide (input.identityVariance > 6/10) }

/-! ## SemanticDensity (JavaspectreCore.cpp)

`measure` tokenises by `istringstream >>`, i.e. splits on whitespace and
drops empty tokens, then returns distinct-token count over token count. -/

/-- Whitespace tokenizer matching `istringstream >>`: maximal runs of
non-whitespace characters, empty runs dropped. `cur` is the (reversed)
current token being accumulated. -/
def tokenizeAux : List Char → List Char → List String
  | [], cur => if cur = [] then [] else [String.mk cur.reverse]
  | c :: rest, cur =>
    if c.isWhitespace then
      if cur = [] then tokenizeAux rest []
      else String.mk cur.reverse :: tokenizeAux rest []
    else tokenizeAux rest (c :: cur)

def SemanticDensity.measure (text : String) : ℚ :=
  if text = "" then 0
  else
    let tokens := tokenizeAux text.data []
    if tokens = [] then 0
    else ((tokens.dedup.length : ℚ) / (tokens.length : ℚ))

/-! ## ToolExecutor (JavaspectreAgent.cpp) -/

def ToolExecutor.execute (action : AgentAction) : ToolResult :=
  if action.type = "RUN_DEEP_EXCAVATION" then
    { success := true
      detail := "Deep excavation triggered for layer: " ++
        ((lookupPayload action.payload "layer").getD "unknown") }
  else if action.type = "PLAN_GENERATE_REPO_BLUEPRINT" then
    { success := true
      detail := "Repo blueprint generation requested for target: " ++
        ((lookupPayload action.payload "target").getD "unspecified") }
  else if action.type = "REQUEST_HUMAN_REVIEW" then
    { success := true
      detail := "Human review requested for item: " ++
        ((lookupPayload action.payload "item").getD "unspecified") }
  else if action.type = "TRIGGER_REMOTE_TOOL" then
    { success := true
      detail := "Remote tool trigger stub executed (configure endpoint in integration layer)." }
  else
    { success := false, detail := "Unknown action type: " ++ action.type }

/-- The four recognized action types of `ToolExecutor::execute`. -/
def recognizedActionTypes : List String :=
  ["RUN_DEEP_EXCAVATION", "PLAN_GENERATE_REPO_BLUEPRINT",
   "REQUEST_HUMAN_REVIEW", "TRIGGER_REMOTE_TOOL"]

/-! ## AlnGateway (JavaspectreAugmentedGuard.hpp)

The gateway is a thin IPC client into the external ALN/CEM runtime; only
its interface lives in this repository, so the embedding quantifies over
an arbitrary implementation. -/

structure AlnGatewayImpl where
  fetchCitizenEnvelope : String → CitizenEnvelope
  evaluateAction : CitizenEnvelope → AgentAction → SafetyDecision
  commitAction : CitizenEnvelope → AgentAction → Bool

/-- The safety decision the gateway returns for this citizen and action
(`evaluateAction` applied to the freshly fetched envelope). -/
def gateDecision (gw : AlnGatewayImpl) (citizen : CitizenContext)
    (action : AgentAction) : SafetyDecision :=
  gw.evaluateAction (gw.fetchCitizenEnvelope citizen.citizenId) action

/-- The commit verdict the gateway returns for this citizen and action. -/
def gateCommitFlag (gw : AlnGatewayImpl) (citizen : CitizenContext)
    (action : AgentAction) : Bool :=
  gw.commitAction (gw.fetchCitizenEnvelope citizen.citizenId) action

/-! ## AugmentedToolExecutor (JavaspectreAugmentedGuard.cpp) -/

/-- Traced embedding of `AugmentedToolExecutor::executeForCitizen`:
log request → fetch envelope → evaluate → (deny | commit → (commit-fail |
route → (route-fail | success))). The second component records every
observable call in order. -/
def AugmentedToolExecutor.executeForCitizenT (gw : AlnGatewayImpl)
    (citizen : CitizenContext) (action : AgentAction) : ToolResult × List Ev :=
  let t0 : List Ev := [.log "AugmentedCitizenAction.request" action.type]
  let env := gw.fetchCitizenEnvelope citizen.citizenId
  let sd := gw.evaluateAction env action
  let t1 := t0 ++ [.evalAction action sd.allowed]
  if !sd.allowed then
    let detail := "Action denied by ALN safety/energy guard: " ++ sd.reason
    (⟨false, detail⟩, t1 ++ [.log "AugmentedCitizenAction.denied" detail])
  else
    let committed := gw.commitAction env action
    let t2 := t1 ++ [.commitCall action committed]
    if !committed then
      let detail := "ALN ledger commit failed; action not executed."
      (⟨false, detail⟩, t2 ++ [.log "AugmentedCitizenAction.commitFailed" detail])
    else
      let routed := ToolExecutor.execute action
      let t3 := t2 ++ [.dispatch action routed]
      if !routed.success then
        let detail := "Tool route failed after commit: " ++ routed.detail
        (⟨false, detail⟩, t3 ++ [.log "AugmentedCitizenAction.routeFailed" detail])
      else
        let detail := "Action executed under ALN safety envelope. " ++ routed.detail
        (⟨true, detail⟩, t3 ++ [.log "AugmentedCitizenAction.executed" detail])

/-- The `ToolResult` that `AugmentedToolExecutor::executeForCitizen` returns. -/
def AugmentedToolExecutor.executeForCitizen (gw : AlnGatewayImpl)
    (citizen : CitizenContext) (action : AgentAction) : ToolResult :=
  (AugmentedToolExecutor.executeForCitizenT gw citizen action).1

/-! ## CommandBlock (JavaspectreCommandBlock.cpp, JavaspectreCommandBlock_Augmented.cpp)

Handlers take the wall clock `now` (the C++ `nowIso()`) and the double
formatter `fmt` (the C++ `std::to_string`) as parameters. -/

def CommandBlock.handleSpectralScan (now : String) (fmt : ℚ → String)
    (ctx : CommandContext) : AgentEnvelope :=
  { title := "Spectral Scan Output"
    timestamp := now
    humanReadable := "Performed spectral scan on input."
    data := EnvData.empty.set "semanticDensity" (fmt (SemanticDensity.measure ctx.input))
    plan :=
      { goal := "Refine understanding of input and identify next analysis steps."
        steps := [⟨"TRIGGER_REMOTE_TOOL",
                   [("tool", "ALNKernel.spectralScan"), ("inputSnippet", strTake ctx.input 128)],
                   5⟩] } }

/-- The fake hazard metrics `handleClassify` derives from the context:
entropy from byte length clamped to `[0,1]`, semantic density measured,
fixed recursion depth 0.3 and identity variance 0.2. -/
def CommandBlock.classifyHazardInput (ctx : CommandContext) : HazardInput :=
  { entropy := qmin 1 (qmax 0 ((ctx.input.utf8ByteSize : ℚ) / 1000))
    semanticDensity := SemanticDensity.measure ctx.input
    recursionDepth := 3/10
    identityVariance := 2/10 }

def CommandBlock.handleClassify (now : String) (fmt : ℚ → String)
    (ctx : CommandContext) : AgentEnvelope :=
  let hout := HazardEngine.evaluate (CommandBlock.classifyHazardInput ctx)
  let data := EnvData.empty
    |>.set "score" (fmt hout.score)
    |>.set "cognitiveHazard" (if hout.cognitiveHazard then "true" else "false")
    |>.set "entropyAnomaly" (if hout.entropyAnomaly then "true" else "false")
    |>.set "ontologicalInstability" (if hout.ontologicalInstability then "true" else "false")
  let steps : List AgentAction := []
  let steps := if hout.cognitiveHazard then
      steps ++ [⟨"REQUEST_HUMAN_REVIEW",
                 [("item", "cognitive-hazard-input"), ("userId", ctx.userId)], 10⟩]
    else steps
  let steps := if hout.entropyAnomaly then
      steps ++ [⟨"RUN_DEEP_EXCAVATION",
                 [("layer", "entropy-anomaly"), ("sessionId", ctx.sessionId)], 7⟩]
    else steps
  let steps := steps ++ [⟨"TRIGGER_REMOTE_TOOL",
                          [("tool", "ALNKernel.hazardReport"), ("severityScore", fmt hout.score)], 5⟩]
  { title := "Risk & Anomaly Classification"
    timestamp := now
    humanReadable := "Evaluated hazard profile for input context."
    data := data
    plan :=
      { goal := "Mitigate identified hazards and route for deeper analysis if needed."
        steps := steps } }

/-- Traced embedding of `CommandBlock::handleOrchestrate`: synthesizes the
fixed four-step plan, then (on consent, with a non-empty plan) dispatches
the first step directly via `ToolExecutor::execute`. -/
def CommandBlock.handleOrchestrateT (now : String) (fmt : ℚ → String)
    (ctx : CommandContext) : AgentEnvelope × List Ev :=
  let scanEnv := CommandBlock.handleSpectralScan now fmt ctx
  let classifyEnv := CommandBlock.handleClassify now fmt ctx
  let data := EnvData.empty
    |>.set "semanticDensity" ((scanEnv.data "semanticDensity").getD "0")
    |>.set "hazardScore" ((classifyEnv.data "score").getD "0")
  let steps : List AgentAction :=
    [⟨"TRIGGER_REMOTE_TOOL",
      [("tool", "ALNKernel.spectralScan"), ("inputSnippet", strTake ctx.input 256)], 6⟩,
     ⟨"RUN_DEEP_EXCAVATION",
      [("layer", "deep"), ("sessionId", ctx.sessionId)], 5⟩,
     ⟨"PLAN_GENERATE_REPO_BLUEPRINT",
      [("target", "virtual-object-ecosystem"), ("userId", ctx.userId)], 4⟩,
     ⟨"REQUEST_HUMAN_REVIEW",
      [("item", "orchestrated-plan"), ("userId", ctx.userId)], 8⟩]
  let plan : AgentPlan := { goal := "Excavate, analyze, and blueprint the input domain safely.", steps := steps }
  let consented := ctx.consentExecuteFirstStep && !plan.steps.isEmpty
  let first := plan.steps.headI
  let result := ToolExecutor.execute first
  ({ title := "Orchestration Plan"
     timestamp := now
     humanReadable := "Orchestrated multi-step plan from spectral scan and classification."
     data := data.set "firstStepAutoExecuted"
       (if consented then (if result.success then "true" else "false") else "false")
     plan := plan },
   if consented then [.dispatch first result] else [])

/-- Traced embedding of `CommandBlock::handleOrchestrateAugmented`: builds
the base orchestration (including its own consent-gated direct dispatch),
copies data and plan, then (on consent) routes the first step through the
safety-gated `AugmentedToolExecutor::executeForCitizen`. -/
def CommandBlock.handleOrchestrateAugmentedT (now : String) (fmt : ℚ → String)
    (gw : AlnGatewayImpl) (ctx : AugmentedCommandContext) : AgentEnvelope × List Ev :=
  let base := CommandBlock.handleOrchestrateT now fmt ctx.toCommandContext
  let data := base.1.data
  let plan : AgentPlan := { goal := base.1.plan.goal, steps := base.1.plan.steps }
  let consented := ctx.consentExecuteFirstStep && !plan.steps.isEmpty
  let first := plan.steps.headI
  let gated := AugmentedToolExecutor.executeForCitizenT gw ctx.citizen first
  ({ title := "Augmented-Citizen Orchestration Plan"
     timestamp := now
     humanReadable := "Multi-step augmented-citizen plan (energy/safety-gated by ALN)."
     data := if consented then
         (data.set "firstStepAutoExecuted" (if gated.1.success then "true" else "false")
           |>.set "firstStepDetail" gated.1.detail)
       else data.set "firstStepAutoExecuted" "false"
     plan := plan },
   base.2 ++ (if consented then gated.2 else []))

/-! ## ALNRiskClassifier (src/chat/JavaspectreCommandBlock.cpp) -/

structure RiskSignal where
  type : String
  reason : String
  weight : ℚ
deriving DecidableEq

structure RiskClassification where
  cognitiveHazard : Bool := false
  entropyAnomaly : Bool := false
  ontologicalInstability : Bool := false
  signals : List RiskSignal := []
deriving DecidableEq

/-- Embeds `::tolower` applied characterwise (ASCII). -/
def toLowerStr (s : String) : String :=
  String.mk (s.data.map Char.toLower)

/-- Checks `text.find(w) != npos` for some keyword `w`. -/
def containsAny (text : String) (words : List String) : Bool :=
  words.any (fun w => decide (w.data <:+: text.data))

def ALNRiskClassifier.classify (input : String)
    (meta : List (String × String)) : RiskClassification :=
  let textLower := toLowerStr input
  let cognitiveHazardKeywords := ["forbidden", "memetic", "cursed", "anomalous cognition"]
  let entropyKeywords := ["random stream", "noise", "entropy source", "unstable log"]
  let ontologicalKeywords := ["reality rewrite", "self-erasure", "identity collapse", "ontology loop"]
  let rc : RiskClassification := {}
  let rc := if containsAny textLower cognitiveHazardKeywords then
      { rc with cognitiveHazard := true
                signals := rc.signals ++
                  [⟨"cognitive-hazard-indicator",
                    "Detected memetic/forbidden semantics in input text.", 9/10⟩] }
    else rc
  let rc := if containsAny textLower entropyKeywords then
      { rc with entropyAnomaly := true
                signals := rc.signals ++
                  [⟨"entropy-anomaly-indicator",
                    "Detected references to entropy/noise sources.", 7/10⟩] }
    else rc
  let rc := if containsAny textLower ontologicalKeywords then
      { rc with ontologicalInstability := true
                signals := rc.signals ++
                  [⟨"ontological-instability-indicator",
                    "Detected ontology/identity destabilizing language.", 85/100⟩] }
    else rc
  let rc := if lookupPayload meta "layer" = some "deep-excavation" then
      { rc with signals := rc.signals ++
                  [⟨"deep-excavation-context",
                    "Context flagged as deep-excavation; raising review priority.", 4/10⟩] }
    else rc
  rc

/-! ## Named steps of the orchestration plan (JavaspectreCommandBlock.cpp, handleOrchestrate) -/

/-- First orchestration step: remote spectral reasoning. -/
def orchScanStep (ctx : CommandContext) : AgentAction :=
  ⟨"TRIGGER_REMOTE_TOOL",
   [("tool", "ALNKernel.spectralScan"), ("inputSnippet", strTake ctx.input 256)], 6⟩

/-- Second orchestration step: unconditional deep excavation on the "deep" layer. -/
def orchExcavStep (ctx : CommandContext) : AgentAction :=
  ⟨"RUN_DEEP_EXCAVATION", [("layer", "deep"), ("sessionId", ctx.sessionId)], 5⟩

/-- Third orchestration step: repo/blueprint suggestion. -/
def orchBlueprintStep (ctx : CommandContext) : AgentAction :=
  ⟨"PLAN_GENERATE_REPO_BLUEPRINT",
   [("target", "virtual-object-ecosystem"), ("userId", ctx.userId)], 4⟩

/-- Fourth orchestration step: human sign-off request. -/
def orchReviewStep (ctx : CommandContext) : AgentAction :=
  ⟨"REQUEST_HUMAN_REVIEW", [("item", "orchestrated-plan"), ("userId", ctx.userId)], 8⟩

/-! ## Concrete fixtures: stub gateways, contexts and a stand-in formatter -/

/-- Concrete stand-in for `std::to_string` on doubles, used when a claim
has to be evaluated at a specific input (no claim depends on its output). -/
def fmtStub : ℚ → String := fun _ => "0"

def stubCitizen : CitizenContext :=
  { citizenId := "citizen-1", vnodePath := "vnodeaugcitizensimhub",
    regionProfile := "ICNIRP_EU", medicalMode := false }

def stubEnvelope : CitizenEnvelope :=
  { ctx := stubCitizen, safety := ⟨1, 1, 1, 0, 0, 0⟩, energyEpochHash := "epoch-0" }

/-- Gateway stub that allows every action and commits successfully. -/
def gwAllow : AlnGatewayImpl :=
  { fetchCitizenEnvelope := fun _ => stubEnvelope
    evaluateAction := fun _ _ => { allowed := true, reason := "ok" }
    commitAction := fun _ _ => true }

/-- Gateway stub that denies every action. -/
def gwDeny : AlnGatewayImpl :=
  { fetchCitizenEnvelope := fun _ => stubEnvelope
    evaluateAction := fun _ _ => { allowed := false, reason := "risk budget exhausted" }
    commitAction := fun _ _ => true }

/-- Gateway stub that allows every action but fails every commit. -/
def gwCommitFail : AlnGatewayImpl :=
  { fetchCitizenEnvelope := fun _ => stubEnvelope
    evaluateAction := fun _ _ => { allowed := true, reason := "ok" }
    commitAction := fun _ _ => false }

/-- A command context with consent granted. -/
def ctxConsent : CommandContext :=
  { input := "input-x", userId := "user-1", sessionId := "sess-1",
    command := "/orchestrate", consentExecuteFirstStep := true }

/-- A command context with empty input and no consent. -/
def ctxPlain : CommandContext :=
  { input := "", userId := "user-1", sessionId := "sess-1",
    command := "/orchestrate", consentExecuteFirstStep := false }

/-- The end-to-end example input of the spec. -/
def ctx8 : CommandContext :=
  { input := "entropy source detected", userId := "user-1", sessionId := "sess-1",
    command := "/classify", consentExecuteFirstStep := false }

/-- A context whose input is 800 spaces: byte length 800 (entropy 0.8)
but no tokens (semantic density 0). -/
def ctxSpaces : CommandContext :=
  { input := String.mk (List.replicate 800 ' '), userId := "user-1", sessionId := "sess-1",
    command := "/classify", consentExecuteFirstStep := false }

/-- An augmented context with consent granted. -/
def actxConsent : AugmentedCommandContext :=
  { toCommandContext := ctxConsent, citizen := stubCitizen }

/-- An augmented context without consent. -/
def actxNoConsent : AugmentedCommandContext :=
  { toCommandContext := ctxPlain, citizen := stubCitizen }

/-! ## Theorems -/

/-- Claim C3: `HazardEngine::evaluate` returns the weighted linear score
`0.4·entropy + 0.3·semanticDensity + 0.2·recursionDepth + 0.1·identityVariance`,
with `cognitiveHazard` iff score > 0.65, `entropyAnomaly` iff entropy > 0.75,
`ontologicalInstability` iff identityVariance > 0.6; and on entropy = 0.9 with
the other inputs 0 it returns entropyAnomaly = true, cognitiveHazard = false,
score = 0.36. -/
theorem hazard_evaluate_formula_thresholds (input : HazardInput) :
    (HazardEngine.evaluate input).score =
      (4/10) * input.entropy + (3/10) * input.semanticDensity +
      (2/10) * input.recursionDepth + (1/10) * input.identityVariance ∧
    ((HazardEngine.evaluate input).cognitiveHazard = true ↔
      (HazardEngine.evaluate input).score > 65/100) ∧
    ((HazardEngine.evaluate input).entropyAnomaly = true ↔ input.entropy > 75/100) ∧
    ((HazardEngine.evaluate input).ontologicalInstability = true ↔
      input.identityVariance > 6/10) ∧
    HazardEngine.evaluate ⟨9/10, 0, 0, 0⟩ =
      { cognitiveHazard := false, entropyAnomaly := true,
        ontologicalInstability := false, score := 36/100 } := by
  refine ⟨?_, ?_, ?_, ?_, ?_⟩
  · simp only [HazardEngine.evaluate]; ring
  · simp [HazardEngine.evaluate]
  · simp [HazardEngine.evaluate]
  · simp [HazardEngine.evaluate]
  · simp only [HazardEngine.evaluate, HazardOutput.mk.injEq]
    refine ⟨?_, ?_, ?_, ?_⟩ <;> first
      | (rw [decide_eq_false_iff_not]; norm_num)
      | (rw [decide_eq_true_eq]; norm_num)
      | norm_num

/-- Claim C4: on `[0,1]^4` the hazard score lies in `[0,1]` and is monotone
(non-decreasing) in every component; the maximum 1.0 is attained at the
all-ones input. -/
theorem hazard_score_range_monotone_max (x y : HazardInput)
    (hx : 0 ≤ x.entropy ∧ x.entropy ≤ 1 ∧
          0 ≤ x.semanticDensity ∧ x.semanticDensity ≤ 1 ∧
          0 ≤ x.recursionDepth ∧ x.recursionDepth ≤ 1 ∧
          0 ≤ x.identityVariance ∧ x.identityVariance ≤ 1)
    (hxy : x.entropy ≤ y.entropy ∧ x.semanticDensity ≤ y.semanticDensity ∧
           x.recursionDepth ≤ y.recursionDepth ∧ x.identityVariance ≤ y.identityVariance) :
    0 ≤ (HazardEngine.evaluate x).score ∧ (HazardEngine.evaluate x).score ≤ 1 ∧
    (HazardEngine.evaluate x).score ≤ (HazardEngine.evaluate y).score ∧
    (HazardEngine.evaluate ⟨1, 1, 1, 1⟩).score = 1 := by
  obtain ⟨h1, h2, h3, h4, h5, h6, h7, h8⟩ := hx
  obtain ⟨m1, m2, m3, m4⟩ := hxy
  simp only [HazardEngine.evaluate]
  refine ⟨by linarith, by linarith, by linarith, by norm_num⟩

/-- Witness for C4 at the corner inputs `(0,0,0,0) ≤ (1,1,1,1)`. -/
theorem hazard_score_range_monotone_max_witness :
    0 ≤ (HazardEngine.evaluate ⟨0, 0, 0, 0⟩).score ∧
    (HazardEngine.evaluate ⟨0, 0, 0, 0⟩).score ≤ 1 ∧
    (HazardEngine.evaluate ⟨0, 0, 0, 0⟩).score ≤ (HazardEngine.evaluate ⟨1, 1, 1, 1⟩).score ∧
    (HazardEngine.evaluate ⟨1, 1, 1, 1⟩).score = 1 :=
  hazard_score_range_monotone_max ⟨0, 0, 0, 0⟩ ⟨1, 1, 1, 1⟩
    (by refine ⟨?_, ?_, ?_, ?_, ?_, ?_, ?_, ?_⟩ <;> decide)
    (by refine ⟨?_, ?_, ?_, ?_⟩ <;> decide)

/-- Claim C9: `ToolExecutor::execute` is total; every recognized type yields
success, and an unrecognized type yields `success = false` with a detail
naming the unknown type (never an exception). -/
theorem toolExecutor_execute_total (a : AgentAction) :
    (a.type ∈ recognizedActionTypes → (ToolExecutor.execute a).success = true) ∧
    (a.type ∉ recognizedActionTypes →
      ToolExecutor.execute a = ⟨false, "Unknown action type: " ++ a.type⟩) := by
  constructor
  · intro h
    rcases (by simpa [recognizedActionTypes] using h) with h | h | h | h <;>
      simp [ToolExecutor.execute, h]
  · intro h
    have h' : ¬ (a.type = "RUN_DEEP_EXCAVATION" ∨ a.type = "PLAN_GENERATE_REPO_BLUEPRINT" ∨
        a.type = "REQUEST_HUMAN_REVIEW" ∨ a.type = "TRIGGER_REMOTE_TOOL") := by
      simpa [recognizedActionTypes] using h
    push_neg at h'
    obtain ⟨n1, n2, n3, n4⟩ := h'
    simp [ToolExecutor.execute, n1, n2, n3, n4]

/-- Witness for C9 at the unrecognized action type "FOO". -/
theorem toolExecutor_execute_total_witness :
    ToolExecutor.execute ⟨"FOO", [], 0⟩ = ⟨false, "Unknown action type: FOO"⟩ :=
  (toolExecutor_execute_total ⟨"FOO", [], 0⟩).2 (by decide)

/-- Claim C1: `executeForCitizen` calls `ToolExecutor::execute` only after
`evaluateAction` returned allowed = true and `commitAction` then returned
true; a denial or a failed commit returns `success = false` with no
dispatch. The last conjunct pins the whole trace of the committed path,
showing the dispatch comes strictly after the evaluate and commit calls. -/
theorem executeForCitizen_commit_boundary (gw : AlnGatewayImpl)
    (citizen : CitizenContext) (action : AgentAction) :
    ((gateDecision gw citizen action).allowed = false →
      (AugmentedToolExecutor.executeForCitizenT gw citizen action).1.success = false ∧
      dispatches (AugmentedToolExecutor.executeForCitizenT gw citizen action).2 = [] ∧
      gateCommits (AugmentedToolExecutor.executeForCitizenT gw citizen action).2 = []) ∧
    ((gateDecision gw citizen action).allowed = true →
      gateCommitFlag gw citizen action = false →
      (AugmentedToolExecutor.executeForCitizenT gw citizen action).1.success = false ∧
      dispatches (AugmentedToolExecutor.executeForCitizenT gw citizen action).2 = []) ∧
    (dispatches (AugmentedToolExecutor.executeForCitizenT gw citizen action).2 ≠ [] →
      (gateDecision gw citizen action).allowed = true ∧
      gateCommitFlag gw citizen action = true) ∧
    ((gateDecision gw citizen action).allowed = true →
      gateCommitFlag gw citizen action = true →
      (AugmentedToolExecutor.executeForCitizenT gw citizen action).2 =
        [.log "AugmentedCitizenAction.request" action.type,
         .evalAction action true,
         .commitCall action true,
         .dispatch action (ToolExecutor.execute action)] ++
        (if (ToolExecutor.execute action).success then
          [.log "AugmentedCitizenAction.executed"
            ("Action executed under ALN safety envelope. " ++ (ToolExecutor.execute action).detail)]
         else
          [.log "AugmentedCitizenAction.routeFailed"
            ("Tool route failed after commit: " ++ (ToolExecutor.execute action).detail)])) := by
  simp only [AugmentedToolExecutor.executeForCitizenT, gateDecision, gateCommitFlag]
  cases h1 : (gw.evaluateAction (gw.fetchCitizenEnvelope citizen.citizenId) action).allowed
  · simp [h1, dispatches, gateCommits, Ev.dispatched, Ev.committed]
  · cases h2 : gw.commitAction (gw.fetchCitizenEnvelope citizen.citizenId) action
    · simp [h1, h2, dispatches, gateCommits, Ev.dispatched, Ev.committed]
    · cases h3 : (ToolExecutor.execute action).success <;>
        simp [h1, h2, h3, dispatches, gateCommits, Ev.dispatched, Ev.committed]

/-- Witness for C1 with the denying gateway stub. -/
theorem executeForCitizen_commit_boundary_witness :
    (AugmentedToolExecutor.executeForCitizenT gwDeny stubCitizen
      ⟨"TRIGGER_REMOTE_TOOL", [], 0⟩).1.success = false ∧
    dispatches (AugmentedToolExecutor.executeForCitizenT gwDeny stubCitizen
      ⟨"TRIGGER_REMOTE_TOOL", [], 0⟩).2 = [] ∧
    gateCommits (AugmentedToolExecutor.executeForCitizenT gwDeny stubCitizen
      ⟨"TRIGGER_REMOTE_TOOL", [], 0⟩).2 = [] :=
  (executeForCitizen_commit_boundary gwDeny stubCitizen ⟨"TRIGGER_REMOTE_TOOL", [], 0⟩).1 rfl

/-- Claim C5 (amended): when the gate allows and commits but the routed tool
fails, `executeForCitizen` returns `success = false` with detail
`"Tool route failed after commit: "` + the route detail and logs an
`AugmentedCitizenAction.routeFailed` event; the dispatch that occurred
distinguishes this from failures before commit, where no dispatch happens. -/
theorem route_failure_after_commit (gw : AlnGatewayImpl)
    (citizen : CitizenContext) (action : AgentAction)
    (h1 : (gateDecision gw citizen action).allowed = true)
    (h2 : gateCommitFlag gw citizen action = true)
    (h3 : (ToolExecutor.execute action).success = false) :
    (AugmentedToolExecutor.executeForCitizenT gw citizen action).1.success = false ∧
    (AugmentedToolExecutor.executeForCitizenT gw citizen action).1.detail =
      "Tool route failed after commit: " ++ (ToolExecutor.execute action).detail ∧
    Ev.log "AugmentedCitizenAction.routeFailed"
        ((AugmentedToolExecutor.executeForCitizenT gw citizen action).1.detail)
      ∈ (AugmentedToolExecutor.executeForCitizenT gw citizen action).2 ∧
    dispatches (AugmentedToolExecutor.executeForCitizenT gw citizen action).2 = [action] := by
  simp only [gateDecision] at h1
  simp only [gateCommitFlag] at h2
  simp [AugmentedToolExecutor.executeForCitizenT, h1, h2, h3,
    dispatches, Ev.dispatched]

/-- Witness for C5's amended theorem: allowing gateway, unrecognized action. -/
theorem route_failure_after_commit_witness :
    (AugmentedToolExecutor.executeForCitizenT gwAllow stubCitizen
      ⟨"UNKNOWN_OP", [], 0⟩).1.success = false ∧
    (AugmentedToolExecutor.executeForCitizenT gwAllow stubCitizen
      ⟨"UNKNOWN_OP", [], 0⟩).1.detail =
      "Tool route failed after commit: " ++ (ToolExecutor.execute ⟨"UNKNOWN_OP", [], 0⟩).detail ∧
    Ev.log "AugmentedCitizenAction.routeFailed"
        ((AugmentedToolExecutor.executeForCitizenT gwAllow stubCitizen
          ⟨"UNKNOWN_OP", [], 0⟩).1.detail)
      ∈ (AugmentedToolExecutor.executeForCitizenT gwAllow stubCitizen
          ⟨"UNKNOWN_OP", [], 0⟩).2 ∧
    dispatches (AugmentedToolExecutor.executeForCitizenT gwAllow stubCitizen
      ⟨"UNKNOWN_OP", [], 0⟩).2 = [⟨"UNKNOWN_OP", [], 0⟩] :=
  route_failure_after_commit gwAllow stubCitizen ⟨"UNKNOWN_OP", [], 0⟩ rfl rfl (by decide)

/-- Counterexample to C5 as stated: on the post-commit route-failure path the
returned detail does not contain the text "post-commit route failure", and no
event literally named "route-failed" is logged (the logged event is
"AugmentedCitizenAction.routeFailed"). -/
theorem route_failure_detail_counterexample :
    (gateDecision gwAllow stubCitizen ⟨"UNKNOWN_OP", [], 0⟩).allowed = true ∧
    gateCommitFlag gwAllow stubCitizen ⟨"UNKNOWN_OP", [], 0⟩ = true ∧
    (ToolExecutor.execute ⟨"UNKNOWN_OP", [], 0⟩).success = false ∧
    ¬ (("post-commit route failure").data <:+:
        ((AugmentedToolExecutor.executeForCitizenT gwAllow stubCitizen
          ⟨"UNKNOWN_OP", [], 0⟩).1.detail).data) ∧
    loggedEventNames (AugmentedToolExecutor.executeForCitizenT gwAllow stubCitizen
        ⟨"UNKNOWN_OP", [], 0⟩).2 =
      ["AugmentedCitizenAction.request", "AugmentedCitizenAction.routeFailed"] ∧
    ¬ ("route-failed" ∈ loggedEventNames (AugmentedToolExecutor.executeForCitizenT gwAllow
        stubCitizen ⟨"UNKNOWN_OP", [], 0⟩).2) := by
  refine ⟨rfl, rfl, by decide, by decide, by decide, by decide⟩

/-- Helper: the classify handler builds its steps by the decision table. -/
theorem classify_steps_table (now : String) (fmt : ℚ → String) (ctx : CommandContext) :
    (CommandBlock.handleClassify now fmt ctx).plan.steps =
      (if (HazardEngine.evaluate (CommandBlock.classifyHazardInput ctx)).cognitiveHazard then
        [⟨"REQUEST_HUMAN_REVIEW", [("item", "cognitive-hazard-input"), ("userId", ctx.userId)], 10⟩]
       else []) ++
      (if (HazardEngine.evaluate (CommandBlock.classifyHazardInput ctx)).entropyAnomaly then
        [⟨"RUN_DEEP_EXCAVATION", [("layer", "entropy-anomaly"), ("sessionId", ctx.sessionId)], 7⟩]
       else []) ++
      [⟨"TRIGGER_REMOTE_TOOL", [("tool", "ALNKernel.hazardReport"),
        ("severityScore", fmt (HazardEngine.evaluate (CommandBlock.classifyHazardInput ctx)).score)],
        5⟩] := by
  simp only [CommandBlock.handleClassify]
  cases h1 : (HazardEngine.evaluate (CommandBlock.classifyHazardInput ctx)).cognitiveHazard <;>
    cases h2 : (HazardEngine.evaluate (CommandBlock.classifyHazardInput ctx)).entropyAnomaly <;>
      simp [h1, h2]

/-- Claim C7: `handleClassify` builds exactly the decision-table steps:
a priority-10 human-review step iff cognitiveHazard, then a priority-7
entropy-anomaly deep-excavation step iff entropyAnomaly, then always a
priority-5 remote hazard-report step carrying the computed score; in this
order, unaffected by priorities. -/
theorem handleClassify_decision_table (now : String) (fmt : ℚ → String) (ctx : CommandContext) :
    (CommandBlock.handleClassify now fmt ctx).plan.steps =
      (if (HazardEngine.evaluate (CommandBlock.classifyHazardInput ctx)).cognitiveHazard then
        [⟨"REQUEST_HUMAN_REVIEW", [("item", "cognitive-hazard-input"), ("userId", ctx.userId)], 10⟩]
       else []) ++
      (if (HazardEngine.evaluate (CommandBlock.classifyHazardInput ctx)).entropyAnomaly then
        [⟨"RUN_DEEP_EXCAVATION", [("layer", "entropy-anomaly"), ("sessionId", ctx.sessionId)], 7⟩]
       else []) ++
      [⟨"TRIGGER_REMOTE_TOOL", [("tool", "ALNKernel.hazardReport"),
        ("severityScore", fmt (HazardEngine.evaluate (CommandBlock.classifyHazardInput ctx)).score)],
        5⟩] :=
  classify_steps_table now fmt ctx

/-- Helper: the orchestration plan is the fixed four-step sequence. -/
theorem orchestrate_steps (now : String) (fmt : ℚ → String) (ctx : CommandContext) :
    (CommandBlock.handleOrchestrateT now fmt ctx).1.plan.steps =
      [orchScanStep ctx, orchExcavStep ctx, orchBlueprintStep ctx, orchReviewStep ctx] := rfl

/-- Helper: the trace of plain orchestration is a single ungated dispatch of
the scan step under consent, and empty otherwise. -/
theorem orchestrateT_trace (now : String) (fmt : ℚ → String) (ctx : CommandContext) :
    (CommandBlock.handleOrchestrateT now fmt ctx).2 =
      if ctx.consentExecuteFirstStep then
        [.dispatch (orchScanStep ctx) (ToolExecutor.execute (orchScanStep ctx))]
      else [] := by
  simp only [CommandBlock.handleOrchestrateT]
  cases hc : ctx.consentExecuteFirstStep <;>
    simp [hc, orchScanStep, List.headI]

/-- Helper: the recorded `firstStepAutoExecuted` flag of plain orchestration. -/
theorem orchestrateT_data_flag (now : String) (fmt : ℚ → String) (ctx : CommandContext) :
    (CommandBlock.handleOrchestrateT now fmt ctx).1.data "firstStepAutoExecuted" =
      some (if ctx.consentExecuteFirstStep then
        (if (ToolExecutor.execute (orchScanStep ctx)).success then "true" else "false")
      else "false") := by
  simp only [CommandBlock.handleOrchestrateT, EnvData.set]
  cases hc : ctx.consentExecuteFirstStep <;>
    simp [hc, orchScanStep, List.headI]

/-- Helper: the augmented orchestration plan equals the base plan. -/
theorem orchestrateAugT_plan (now : String) (fmt : ℚ → String)
    (gw : AlnGatewayImpl) (ctx : AugmentedCommandContext) :
    (CommandBlock.handleOrchestrateAugmentedT now fmt gw ctx).1.plan.steps =
      [orchScanStep ctx.toCommandContext, orchExcavStep ctx.toCommandContext,
       orchBlueprintStep ctx.toCommandContext, orchReviewStep ctx.toCommandContext] := rfl

/-- Helper: the augmented orchestration trace is the base trace followed,
under consent, by the gated executor's trace on the scan step. -/
theorem orchestrateAugT_trace (now : String) (fmt : ℚ → String)
    (gw : AlnGatewayImpl) (ctx : AugmentedCommandContext) :
    (CommandBlock.handleOrchestrateAugmentedT now fmt gw ctx).2 =
      (CommandBlock.handleOrchestrateT now fmt ctx.toCommandContext).2 ++
      (if ctx.consentExecuteFirstStep then
        (AugmentedToolExecutor.executeForCitizenT gw ctx.citizen
          (orchScanStep ctx.toCommandContext)).2
      else []) := by
  have hsteps := orchestrate_steps now fmt ctx.toCommandContext
  simp only [CommandBlock.handleOrchestrateAugmentedT, hsteps]
  cases hc : ctx.consentExecuteFirstStep <;>
    simp [hc, orchScanStep, List.headI]

/-- Helper: the recorded `firstStepAutoExecuted` flag of augmented
orchestration is the gated executor's outcome. -/
theorem orchestrateAugT_data_flag (now : String) (fmt : ℚ → String)
    (gw : AlnGatewayImpl) (ctx : AugmentedCommandContext) :
    (CommandBlock.handleOrchestrateAugmentedT now fmt gw ctx).1.data "firstStepAutoExecuted" =
      some (if ctx.consentExecuteFirstStep then
        (if (AugmentedToolExecutor.executeForCitizen gw ctx.citizen
            (orchScanStep ctx.toCommandContext)).success then "true" else "false")
      else "false") := by
  have hsteps := orchestrate_steps now fmt ctx.toCommandContext
  simp only [CommandBlock.handleOrchestrateAugmentedT, AugmentedToolExecutor.executeForCitizen,
    hsteps]
  cases hc : ctx.consentExecuteFirstStep <;>
    simp [hc, orchScanStep, List.headI, EnvData.set]

/-- Helper: the gated executor submits exactly its action to `evaluateAction`. -/
theorem gateEvals_executeForCitizenT (gw : AlnGatewayImpl)
    (citizen : CitizenContext) (action : AgentAction) :
    gateEvals (AugmentedToolExecutor.executeForCitizenT gw citizen action).2 =
      [(action, (gateDecision gw citizen action).allowed)] := by
  simp only [AugmentedToolExecutor.executeForCitizenT, gateDecision]
  cases h1 : (gw.evaluateAction (gw.fetchCitizenEnvelope citizen.citizenId) action).allowed
  · simp [h1, gateEvals, Ev.evaluated]
  · cases h2 : gw.commitAction (gw.fetchCitizenEnvelope citizen.citizenId) action
    · simp [h1, h2, gateEvals, Ev.evaluated]
    · cases h3 : (ToolExecutor.execute action).success <;>
        simp [h1, h2, h3, gateEvals, Ev.evaluated]

/-- Helper: the gated executor never dispatches anything but its action. -/
theorem dispatches_executeForCitizenT_sub (gw : AlnGatewayImpl)
    (citizen : CitizenContext) (action : AgentAction) :
    ∀ x ∈ dispatches (AugmentedToolExecutor.executeForCitizenT gw citizen action).2,
      x = action := by
  simp only [AugmentedToolExecutor.executeForCitizenT]
  cases h1 : (gw.evaluateAction (gw.fetchCitizenEnvelope citizen.citizenId) action).allowed
  · simp [h1, dispatches, Ev.dispatched]
  · cases h2 : gw.commitAction (gw.fetchCitizenEnvelope citizen.citizenId) action
    · simp [h1, h2, dispatches, Ev.dispatched]
    · cases h3 : (ToolExecutor.execute action).success <;>
        simp [h1, h2, h3, dispatches, Ev.dispatched]

/-- Helper: when the gate allows and commits, the gated executor dispatches
exactly its action once. -/
theorem dispatches_executeForCitizenT_committed (gw : AlnGatewayImpl)
    (citizen : CitizenContext) (action : AgentAction)
    (h1 : (gateDecision gw citizen action).allowed = true)
    (h2 : gateCommitFlag gw citizen action = true) :
    dispatches (AugmentedToolExecutor.executeForCitizenT gw citizen action).2 = [action] := by
  simp only [gateDecision] at h1
  simp only [gateCommitFlag] at h2
  simp only [AugmentedToolExecutor.executeForCitizenT]
  cases h3 : (ToolExecutor.execute action).success <;>
    simp [h1, h2, h3, dispatches, Ev.dispatched]

/-- Claim C2 (amended): with consent and a non-empty plan the plain
orchestrator executes exactly `plan.steps[0]`, but directly via
`ToolExecutor::execute` with no gateway call, recording the outcome; the
augmented orchestrator passes exactly `plan.steps[0]` to the safety-gated
executor and records its outcome; without consent neither executes anything
and the flag is recorded "false"; no step other than step 0 is ever
auto-executed. -/
theorem orchestrate_consent_step_zero (now : String) (fmt : ℚ → String)
    (gw : AlnGatewayImpl) (ctx : AugmentedCommandContext) :
    (ctx.consentExecuteFirstStep = true →
      dispatches (CommandBlock.handleOrchestrateT now fmt ctx.toCommandContext).2 =
        [(CommandBlock.handleOrchestrateT now fmt ctx.toCommandContext).1.plan.steps.headI] ∧
      gateEvals (CommandBlock.handleOrchestrateT now fmt ctx.toCommandContext).2 = [] ∧
      (CommandBlock.handleOrchestrateT now fmt ctx.toCommandContext).1.data
          "firstStepAutoExecuted" =
        some (if (ToolExecutor.execute (CommandBlock.handleOrchestrateT now fmt
            ctx.toCommandContext).1.plan.steps.headI).success then "true" else "false")) ∧
    (ctx.consentExecuteFirstStep = false →
      dispatches (CommandBlock.handleOrchestrateT now fmt ctx.toCommandContext).2 = [] ∧
      (CommandBlock.handleOrchestrateT now fmt ctx.toCommandContext).1.data
          "firstStepAutoExecuted" = some "false") ∧
    (ctx.consentExecuteFirstStep = true →
      gateEvals (CommandBlock.handleOrchestrateAugmentedT now fmt gw ctx).2 =
        [((CommandBlock.handleOrchestrateAugmentedT now fmt gw ctx).1.plan.steps.headI,
          (gateDecision gw ctx.citizen
            (CommandBlock.handleOrchestrateAugmentedT now fmt gw ctx).1.plan.steps.headI).allowed)] ∧
      (CommandBlock.handleOrchestrateAugmentedT now fmt gw ctx).1.data
          "firstStepAutoExecuted" =
        some (if (AugmentedToolExecutor.executeForCitizen gw ctx.citizen
            (CommandBlock.handleOrchestrateAugmentedT now fmt gw ctx).1.plan.steps.headI).success
          then "true" else "false")) ∧
    (ctx.consentExecuteFirstStep = false →
      dispatches (CommandBlock.handleOrchestrateAugmentedT now fmt gw ctx).2 = [] ∧
      gateEvals (CommandBlock.handleOrchestrateAugmentedT now fmt gw ctx).2 = [] ∧
      (CommandBlock.handleOrchestrateAugmentedT now fmt gw ctx).1.data
          "firstStepAutoExecuted" = some "false") ∧
    (∀ a ∈ dispatches (CommandBlock.handleOrchestrateT now fmt ctx.toCommandContext).2,
      a = (CommandBlock.handleOrchestrateT now fmt ctx.toCommandContext).1.plan.steps.headI) ∧
    (∀ a ∈ dispatches (CommandBlock.handleOrchestrateAugmentedT now fmt gw ctx).2,
      a = (CommandBlock.handleOrchestrateAugmentedT now fmt gw ctx).1.plan.steps.headI) := by
  have hsteps := orchestrate_steps now fmt ctx.toCommandContext
  have haugsteps := orchestrateAugT_plan now fmt gw ctx
  have htr := orchestrateT_trace now fmt ctx.toCommandContext
  have haugtr := orchestrateAugT_trace now fmt gw ctx
  have hflag := orchestrateT_data_flag now fmt ctx.toCommandContext
  have haugflag := orchestrateAugT_data_flag now fmt gw ctx
  have hge := gateEvals_executeForCitizenT gw ctx.citizen (orchScanStep ctx.toCommandContext)
  have hsub := dispatches_executeForCitizenT_sub gw ctx.citizen (orchScanStep ctx.toCommandContext)
  refine ⟨?_, ?_, ?_, ?_, ?_, ?_⟩
  · intro hc
    rw [htr, hflag, hsteps]
    simp [hc, dispatches, Ev.dispatched, gateEvals, Ev.evaluated, List.headI]
  · intro hc
    rw [htr, hflag]
    simp [hc, dispatches]
  · intro hc
    rw [haugtr, haugflag, htr, haugsteps]
    simp only [hc, if_true, List.headI]
    constructor
    · simp only [gateEvals, List.filterMap_append] at hge ⊢
      simp [hge, Ev.evaluated]
    · trivial
  · intro hc
    rw [haugtr, haugflag, htr]
    simp [hc, dispatches, gateEvals]
  · intro a ha
    rw [htr] at ha
    rw [hsteps]
    cases hc : ctx.consentExecuteFirstStep <;> rw [hc] at ha <;>
      simp [dispatches, Ev.dispatched, List.headI] at ha ⊢
    exact ha
  · intro a ha
    rw [haugtr, htr] at ha
    rw [haugsteps]
    simp only [dispatches, List.filterMap_append, List.mem_append] at ha
    rcases ha with h | h
    · cases hc : ctx.consentExecuteFirstStep <;> rw [hc] at h <;>
        simp [Ev.dispatched, List.headI] at h ⊢
      exact h
    · cases hc : ctx.consentExecuteFirstStep <;> rw [hc] at h
      · simp at h
      · have h' := hsub a (by simpa [dispatches] using h)
        rw [h']
        simp [List.headI]

/-- Witness for C2's amended theorem: allowing gateway, consenting context. -/
theorem orchestrate_consent_step_zero_witness :
    gateEvals (CommandBlock.handleOrchestrateAugmentedT "T" fmtStub gwAllow actxConsent).2 =
      [((CommandBlock.handleOrchestrateAugmentedT "T" fmtStub gwAllow actxConsent).1.plan.steps.headI,
        (gateDecision gwAllow actxConsent.citizen
          (CommandBlock.handleOrchestrateAugmentedT "T" fmtStub gwAllow
            actxConsent).1.plan.steps.headI).allowed)] ∧
    (CommandBlock.handleOrchestrateAugmentedT "T" fmtStub gwAllow actxConsent).1.data
        "firstStepAutoExecuted" =
      some (if (AugmentedToolExecutor.executeForCitizen gwAllow actxConsent.citizen
          (CommandBlock.handleOrchestrateAugmentedT "T" fmtStub gwAllow
            actxConsent).1.plan.steps.headI).success then "true" else "false") :=
  (orchestrate_consent_step_zero "T" fmtStub gwAllow actxConsent).2.2.1 rfl

/-- Counterexample to C2 as stated: with consent, the plain orchestrator
executes step 0 but never passes it (or anything) to the SafetyGatedExecutor:
its trace has one direct dispatch and no gateway evaluate, commit or log. -/
theorem orchestrate_consent_counterexample :
    ctxConsent.consentExecuteFirstStep = true ∧
    (CommandBlock.handleOrchestrateT "T" fmtStub ctxConsent).1.plan.steps ≠ [] ∧
    dispatches (CommandBlock.handleOrchestrateT "T" fmtStub ctxConsent).2 =
      [(CommandBlock.handleOrchestrateT "T" fmtStub ctxConsent).1.plan.steps.headI] ∧
    gateEvals (CommandBlock.handleOrchestrateT "T" fmtStub ctxConsent).2 = [] ∧
    gateCommits (CommandBlock.handleOrchestrateT "T" fmtStub ctxConsent).2 = [] ∧
    loggedEventNames (CommandBlock.handleOrchestrateT "T" fmtStub ctxConsent).2 = [] := by
  refine ⟨rfl, ?_, ?_, ?_, ?_, ?_⟩ <;> decide

/-- Claim C6 (amended): the orchestration plan is the fixed four-step
sequence spectral-scan, deep-excavation on the "deep" layer, blueprint
generation, human review; it does not embed the classify decision-table
steps (no hazard-report step appears); its last step is always the
human-review request. -/
theorem orchestrate_plan_fixed_ends_review (now : String) (fmt : ℚ → String)
    (ctx : CommandContext) :
    (CommandBlock.handleOrchestrateT now fmt ctx).1.plan.steps =
      [orchScanStep ctx, orchExcavStep ctx, orchBlueprintStep ctx, orchReviewStep ctx] ∧
    (CommandBlock.handleOrchestrateT now fmt ctx).1.plan.steps.map AgentAction.type =
      ["TRIGGER_REMOTE_TOOL", "RUN_DEEP_EXCAVATION", "PLAN_GENERATE_REPO_BLUEPRINT",
       "REQUEST_HUMAN_REVIEW"] ∧
    (CommandBlock.handleOrchestrateT now fmt ctx).1.plan.steps.getLast? =
      some (orchReviewStep ctx) ∧
    (∀ s ∈ (CommandBlock.handleOrchestrateT now fmt ctx).1.plan.steps,
      lookupPayload s.payload "tool" ≠ some "ALNKernel.hazardReport") := by
  refine ⟨rfl, rfl, rfl, ?_⟩
  intro s hs
  rw [orchestrate_steps] at hs
  simp only [List.mem_cons, List.not_mem_nil, or_false] at hs
  rcases hs with rfl | rfl | rfl | rfl
  · rw [show lookupPayload (orchScanStep ctx).payload "tool" =
      some "ALNKernel.spectralScan" from rfl]
    decide
  · rw [show lookupPayload (orchExcavStep ctx).payload "tool" = none from rfl]
    decide
  · rw [show lookupPayload (orchBlueprintStep ctx).payload "tool" = none from rfl]
    decide
  · rw [show lookupPayload (orchReviewStep ctx).payload "tool" = none from rfl]
    decide

/-- Helper: the hazard input handleClassify derives from the empty-input context. -/
theorem classifyHazardInput_ctxPlain :
    CommandBlock.classifyHazardInput ctxPlain = ⟨0, 0, 3/10, 2/10⟩ := by
  have hb : ("" : String).utf8ByteSize = 0 := rfl
  simp only [CommandBlock.classifyHazardInput, ctxPlain, SemanticDensity.measure, hb]
  norm_num [qmin, qmax]

/-- Helper: both classify branch flags are false on the empty-input context. -/
theorem hazard_flags_ctxPlain :
    (HazardEngine.evaluate (CommandBlock.classifyHazardInput ctxPlain)).cognitiveHazard = false ∧
    (HazardEngine.evaluate (CommandBlock.classifyHazardInput ctxPlain)).entropyAnomaly = false := by
  rw [classifyHazardInput_ctxPlain]
  constructor <;>
  · simp only [HazardEngine.evaluate, decide_eq_false_iff_not]
    norm_num

/-- Counterexample to C6 as stated: the classify decision table always emits
a hazard-report step, but no step of the orchestration plan is that step, so
the orchestration plan does not consist of the decision-table steps plus a
prefix and a suffix. -/
theorem orchestrate_plan_missing_table_step :
    (∃ s ∈ (CommandBlock.handleClassify "T" fmtStub ctxPlain).plan.steps,
      lookupPayload s.payload "tool" = some "ALNKernel.hazardReport") ∧
    (∀ s ∈ (CommandBlock.handleOrchestrateT "T" fmtStub ctxPlain).1.plan.steps,
      lookupPayload s.payload "tool" ≠ some "ALNKernel.hazardReport") := by
  obtain ⟨hcog, hent⟩ := hazard_flags_ctxPlain
  have hsteps := classify_steps_table "T" fmtStub ctxPlain
  rw [hcog, hent] at hsteps
  simp at hsteps
  constructor
  · refine ⟨⟨"TRIGGER_REMOTE_TOOL", [("tool", "ALNKernel.hazardReport"),
      ("severityScore", fmtStub (HazardEngine.evaluate
        (CommandBlock.classifyHazardInput ctxPlain)).score)], 5⟩, ?_, rfl⟩
    rw [hsteps]
    exact List.mem_singleton_self _
  · intro s hs
    rw [orchestrate_steps] at hs
    simp only [List.mem_cons, List.not_mem_nil, or_false] at hs
    rcases hs with rfl | rfl | rfl | rfl
    · rw [show lookupPayload (orchScanStep ctxPlain).payload "tool" =
        some "ALNKernel.spectralScan" from rfl]
      decide
    · rw [show lookupPayload (orchExcavStep ctxPlain).payload "tool" = none from rfl]
      decide
    · rw [show lookupPayload (orchBlueprintStep ctxPlain).payload "tool" = none from rfl]
      decide
    · rw [show lookupPayload (orchReviewStep ctxPlain).payload "tool" = none from rfl]
      decide

/-- Claim C10: with consent, the augmented orchestrator causes the first plan
step to be handed to the tool layer twice — once dispatched directly by the
nested plain orchestration with no gateway evaluate or commit around it, and
once submitted to the safety-gated executor; when the gate allows and
commits, the step is dispatched exactly twice. -/
theorem augmented_first_step_double_dispatch (now : String) (fmt : ℚ → String)
    (gw : AlnGatewayImpl) (ctx : AugmentedCommandContext)
    (hc : ctx.consentExecuteFirstStep = true) :
    (CommandBlock.handleOrchestrateAugmentedT now fmt gw ctx).1.plan.steps ≠ [] ∧
    (CommandBlock.handleOrchestrateAugmentedT now fmt gw ctx).2 =
      (CommandBlock.handleOrchestrateT now fmt ctx.toCommandContext).2 ++
      (AugmentedToolExecutor.executeForCitizenT gw ctx.citizen
        (CommandBlock.handleOrchestrateAugmentedT now fmt gw ctx).1.plan.steps.headI).2 ∧
    dispatches (CommandBlock.handleOrchestrateT now fmt ctx.toCommandContext).2 =
      [(CommandBlock.handleOrchestrateAugmentedT now fmt gw ctx).1.plan.steps.headI] ∧
    gateEvals (CommandBlock.handleOrchestrateT now fmt ctx.toCommandContext).2 = [] ∧
    gateCommits (CommandBlock.handleOrchestrateT now fmt ctx.toCommandContext).2 = [] ∧
    gateEvals (AugmentedToolExecutor.executeForCitizenT gw ctx.citizen
        (CommandBlock.handleOrchestrateAugmentedT now fmt gw ctx).1.plan.steps.headI).2 =
      [((CommandBlock.handleOrchestrateAugmentedT now fmt gw ctx).1.plan.steps.headI,
        (gateDecision gw ctx.citizen
          (CommandBlock.handleOrchestrateAugmentedT now fmt gw ctx).1.plan.steps.headI).allowed)] ∧
    ((gateDecision gw ctx.citizen
        (CommandBlock.handleOrchestrateAugmentedT now fmt gw ctx).1.plan.steps.headI).allowed = true →
      gateCommitFlag gw ctx.citizen
        (CommandBlock.handleOrchestrateAugmentedT now fmt gw ctx).1.plan.steps.headI = true →
      dispatches (CommandBlock.handleOrchestrateAugmentedT now fmt gw ctx).2 =
        [(CommandBlock.handleOrchestrateAugmentedT now fmt gw ctx).1.plan.steps.headI,
         (CommandBlock.handleOrchestrateAugmentedT now fmt gw ctx).1.plan.steps.headI]) := by
  have haugsteps := orchestrateAugT_plan now fmt gw ctx
  simp only [haugsteps, List.headI]
  refine ⟨by simp, ?_, ?_, ?_, ?_, ?_, ?_⟩
  · rw [orchestrateAugT_trace]
    simp [hc, haugsteps, List.headI]
  · rw [orchestrateT_trace]
    simp [hc, dispatches, Ev.dispatched]
  · rw [orchestrateT_trace]
    simp [hc, gateEvals, Ev.evaluated]
  · rw [orchestrateT_trace]
    simp [hc, gateCommits, Ev.committed]
  · exact gateEvals_executeForCitizenT gw ctx.citizen (orchScanStep ctx.toCommandContext)
  · intro h1 h2
    rw [orchestrateAugT_trace, orchestrateT_trace]
    simp only [hc, if_true, dispatches, List.filterMap_append]
    rw [show List.filterMap Ev.dispatched
        [Ev.dispatch (orchScanStep ctx.toCommandContext)
          (ToolExecutor.execute (orchScanStep ctx.toCommandContext))] =
      [orchScanStep ctx.toCommandContext] from rfl]
    have := dispatches_executeForCitizenT_committed gw ctx.citizen
      (orchScanStep ctx.toCommandContext) h1 h2
    rw [dispatches] at this
    rw [this]
    rfl

/-- Witness for C10: allowing gateway, consenting context. -/
theorem augmented_first_step_double_dispatch_witness :
    dispatches (CommandBlock.handleOrchestrateAugmentedT "T" fmtStub gwAllow actxConsent).2 =
      [(CommandBlock.handleOrchestrateAugmentedT "T" fmtStub gwAllow
          actxConsent).1.plan.steps.headI,
       (CommandBlock.handleOrchestrateAugmentedT "T" fmtStub gwAllow
          actxConsent).1.plan.steps.headI] :=
  (augmented_first_step_double_dispatch "T" fmtStub gwAllow actxConsent rfl).2.2.2.2.2.2
    rfl rfl

/-- Helper: the hazard input handleClassify derives from the input
"entropy source detected" (23 bytes, 3 distinct tokens out of 3). -/
theorem classifyHazardInput_ctx8 :
    CommandBlock.classifyHazardInput ctx8 = ⟨23/1000, 1, 3/10, 2/10⟩ := by
  have hb : ("entropy source detected" : String).utf8ByteSize = 23 := by decide
  have ht : tokenizeAux ("entropy source detected" : String).data [] =
      ["entropy", "source", "detected"] := by decide
  have hd : (["entropy", "source", "detected"] : List String).dedup =
      ["entropy", "source", "detected"] := by decide
  have hne : ("entropy source detected" : String) ≠ "" := by decide
  have hne2 : (["entropy", "source", "detected"] : List String) ≠ [] := by decide
  simp only [CommandBlock.classifyHazardInput, ctx8, SemanticDensity.measure, hb, ht, hd,
    if_neg hne, if_neg hne2]
  norm_num [qmin, qmax]

/-- Helper: on "entropy source detected" the length-derived entropy is only
0.023, so neither classify branch flag fires. -/
theorem hazard_flags_ctx8 :
    (HazardEngine.evaluate (CommandBlock.classifyHazardInput ctx8)).cognitiveHazard = false ∧
    (HazardEngine.evaluate (CommandBlock.classifyHazardInput ctx8)).entropyAnomaly = false := by
  rw [classifyHazardInput_ctx8]
  constructor <;>
  · simp only [HazardEngine.evaluate, decide_eq_false_iff_not]
    norm_num

set_option maxRecDepth 8192 in
/-- Helper: the hazard input derived from the 800-space context. -/
theorem classifyHazardInput_ctxSpaces :
    CommandBlock.classifyHazardInput ctxSpaces = ⟨4/5, 0, 3/10, 2/10⟩ := by
  have hb : (String.mk (List.replicate 800 ' ')).utf8ByteSize = 800 := by decide
  have ht : tokenizeAux (String.mk (List.replicate 800 ' ')).data [] = [] := by decide
  have hne : (String.mk (List.replicate 800 ' ')) ≠ "" := by decide
  simp only [CommandBlock.classifyHazardInput, ctxSpaces, SemanticDensity.measure, hb, ht,
    if_neg hne]
  norm_num [qmin, qmax]

/-- Helper: on the 800-space context the entropy-anomaly flag fires
(entropy 0.8 > 0.75) while cognitive hazard does not (score 0.4). -/
theorem hazard_flags_ctxSpaces :
    (HazardEngine.evaluate (CommandBlock.classifyHazardInput ctxSpaces)).cognitiveHazard
      = false ∧
    (HazardEngine.evaluate (CommandBlock.classifyHazardInput ctxSpaces)).entropyAnomaly
      = true := by
  rw [classifyHazardInput_ctxSpaces]
  constructor
  · simp only [HazardEngine.evaluate, decide_eq_false_iff_not]
    norm_num
  · simp only [HazardEngine.evaluate, decide_eq_true_eq]
    norm_num

/-- Counterexample to C8 as stated: running handleClassify end to end on
"entropy source detected" yields only the hazard-report step — no
entropy-anomaly deep-excavation step is in the plan, because the
length-derived entropy 0.023 is not above 0.75. -/
theorem classify_entropy_input_counterexample :
    (CommandBlock.handleClassify "T" fmtStub ctx8).plan.steps.map AgentAction.type =
      ["TRIGGER_REMOTE_TOOL"] ∧
    (∀ s ∈ (CommandBlock.handleClassify "T" fmtStub ctx8).plan.steps,
      s.type ≠ "RUN_DEEP_EXCAVATION") := by
  obtain ⟨hcog, hent⟩ := hazard_flags_ctx8
  have hsteps := classify_steps_table "T" fmtStub ctx8
  rw [hcog, hent] at hsteps
  simp at hsteps
  rw [hsteps]
  constructor
  · rfl
  · intro s hs
    simp only [List.mem_singleton] at hs
    rw [hs]
    decide

/-- Claim C8 (amended): the example classifier does flag "entropy source
detected" as an entropy anomaly and not a cognitive hazard, and the decision
table applied to such flags yields the deep-excavation step followed by the
hazard-report step with no human-review step; but the classifier is not
wired into plan synthesis, and the actual handleClassify pipeline on this
input emits only the hazard-report step. -/
theorem classify_entropy_input_end_to_end (now : String) (fmt : ℚ → String) :
    ((ALNRiskClassifier.classify "entropy source detected" []).entropyAnomaly = true ∧
     (ALNRiskClassifier.classify "entropy source detected" []).cognitiveHazard = false ∧
     (ALNRiskClassifier.classify "entropy source detected" []).ontologicalInstability = false) ∧
    (CommandBlock.handleClassify now fmt ctx8).plan.steps.map AgentAction.type =
      ["TRIGGER_REMOTE_TOOL"] ∧
    (∀ ctx : CommandContext,
      (HazardEngine.evaluate (CommandBlock.classifyHazardInput ctx)).cognitiveHazard = false →
      (HazardEngine.evaluate (CommandBlock.classifyHazardInput ctx)).entropyAnomaly = true →
      (CommandBlock.handleClassify now fmt ctx).plan.steps.map AgentAction.type =
        ["RUN_DEEP_EXCAVATION", "TRIGGER_REMOTE_TOOL"]) := by
  refine ⟨⟨by decide, by decide, by decide⟩, ?_, ?_⟩
  · obtain ⟨hcog, hent⟩ := hazard_flags_ctx8
    have hsteps := classify_steps_table now fmt ctx8
    rw [hcog, hent] at hsteps
    simp at hsteps
    rw [hsteps]
    rfl
  · intro ctx hcog hent
    have hsteps := classify_steps_table now fmt ctx
    rw [hcog, hent] at hsteps
    simp at hsteps
    rw [hsteps]
    rfl

/-- Witness for C8's amended theorem at the 800-space context, whose derived
flags are exactly cognitiveHazard = false, entropyAnomaly = true. -/
theorem classify_entropy_input_end_to_end_witness :
    (CommandBlock.handleClassify "T" fmtStub ctxSpaces).plan.steps.map AgentAction.type =
      ["RUN_DEEP_EXCAVATION", "TRIGGER_REMOTE_TOOL"] :=
  (classify_entropy_input_end_to_end "T" fmtStub).2.2 ctxSpaces
    hazard_flags_ctxSpaces.1 hazard_flags_ctxSpaces.2

/-- Witness for C3 at the spec's concrete hazard input. -/
theorem hazard_evaluate_formula_thresholds_witness :
    HazardEngine.evaluate ⟨9/10, 0, 0, 0⟩ =
      { cognitiveHazard := false, entropyAnomaly := true,
        ontologicalInstability := false, score := 36/100 } :=
  (hazard_evaluate_formula_thresholds ⟨0, 0, 0, 0⟩).2.2.2.2

/-- Witness for C6's amended theorem at a concrete context. -/
theorem orchestrate_plan_fixed_ends_review_witness :
    (CommandBlock.handleOrchestrateT "T" fmtStub ctxPlain).1.plan.steps.map AgentAction.type =
      ["TRIGGER_REMOTE_TOOL", "RUN_DEEP_EXCAVATION", "PLAN_GENERATE_REPO_BLUEPRINT",
       "REQUEST_HUMAN_REVIEW"] ∧
    (CommandBlock.handleOrchestrateT "T" fmtStub ctxPlain).1.plan.steps.getLast? =
      some (orchReviewStep ctxPlain) :=
  ⟨(orchestrate_plan_fixed_ends_review "T" fmtStub ctxPlain).2.1,
   (orchestrate_plan_fixed_ends_review "T" fmtStub ctxPlain).2.2.1⟩

/-- Witness for C7 at a concrete context. -/
theorem handleClassify_decision_table_witness :
    (CommandBlock.handleClassify "T" fmtStub ctxPlain).plan.steps =
      (if (HazardEngine.evaluate (CommandBlock.classifyHazardInput ctxPlain)).cognitiveHazard then
        [⟨"REQUEST_HUMAN_REVIEW",
          [("item", "cognitive-hazard-input"), ("userId", ctxPlain.userId)], 10⟩]
       else []) ++
      (if (HazardEngine.evaluate (CommandBlock.classifyHazardInput ctxPlain)).entropyAnomaly then
        [⟨"RUN_DEEP_EXCAVATION",
          [("layer", "entropy-anomaly"), ("sessionId", ctxPlain.sessionId)], 7⟩]
       else []) ++
      [⟨"TRIGGER_REMOTE_TOOL", [("tool", "ALNKernel.hazardReport"),
        ("severityScore", fmtStub (HazardEngine.evaluate
          (CommandBlock.classifyHazardInput ctxPlain)).score)], 5⟩] :=
  handleClassify_decision_table "T" fmtStub ctxPlain

end Javaspectre
